import Mathlib

/-!
Verification development for the `sinilink-xy-psu` driver crate.

Each Rust function relevant to the properties below is embedded as a Lean
definition over `Nat`, with explicit `% 65536` (or `% 256`) wherever the Rust
code performs wrapping `u16`/`u8` arithmetic, `Option` or explicit result
types wherever the Rust code is fallible, and an explicit panic outcome
wherever the Rust code can panic.
-/

namespace Sinilink

/-- Unit tag for temperatures, from `register.rs` (`TemperatureUnit`). -/
inductive TemperatureUnit
  | Celsius
  | Fahrenheit
deriving DecidableEq, Repr

/-- Temperature value tagged with its unit, from `register.rs` (`Temperature`). -/
inductive Temperature
  | Fahrenheit (v : Nat)
  | Celsius (v : Nat)
deriving DecidableEq, Repr

/-- Wrapping `u16` multiplication (Rust release-mode `a * b` on `u16`). -/
def wmul16 (a b : Nat) : Nat := a * b % 65536

/-- Wrapping `u16` subtraction for operands below `2 ^ 16`. -/
def wsub16 (a b : Nat) : Nat := (a % 65536 + 65536 - b % 65536) % 65536

/-- Wrapping `u16` addition. -/
def wadd16 (a b : Nat) : Nat := (a + b) % 65536

/-- From `register.rs`, `Temperature::div_10_and_round`: keep one decimal place
and round half up. -/
def Temperature.div_10_and_round (value : Nat) : Nat :=
  if 5 ≤ value % 10 then value / 10 + 1 else value / 10

/-- From `register.rs`, `Temperature::f_to_c`: `((temp_f * 10 - 320) * 5) / 9`
followed by `div_10_and_round`, all in `u16` arithmetic. -/
def Temperature.f_to_c (temp_f : Nat) : Nat :=
  Temperature.div_10_and_round (wmul16 (wsub16 (wmul16 temp_f 10) 320) 5 / 9)

/-- From `register.rs`, `Temperature::c_to_f`: `((temp_c * 90) / 5) + 320`
followed by `div_10_and_round`, all in `u16` arithmetic. -/
def Temperature.c_to_f (temp_c : Nat) : Nat :=
  Temperature.div_10_and_round (wadd16 (wmul16 temp_c 90 / 5) 320)

/-- From `register.rs`, `Temperature::as_celsius`. -/
def Temperature.as_celsius : Temperature → Nat
  | .Celsius inner => inner
  | .Fahrenheit inner => Temperature.f_to_c inner

/-- From `register.rs`, `Temperature::as_fahrenheit`. -/
def Temperature.as_fahrenheit : Temperature → Nat
  | .Celsius inner => Temperature.c_to_f inner
  | .Fahrenheit inner => inner

/-- From `register.rs`, `Temperature::as_unit`. -/
def Temperature.as_unit (t : Temperature) : TemperatureUnit → Nat
  | .Celsius => t.as_celsius
  | .Fahrenheit => t.as_fahrenheit

/-- From `register.rs`, `Temperature::new`. -/
def Temperature.new (value : Nat) : TemperatureUnit → Temperature
  | .Celsius => .Celsius value
  | .Fahrenheit => .Fahrenheit value

/-- Mathematical (non-wrapping) value of the `f_to_c` computation. -/
def f_to_c_exact (temp_f : Nat) : Nat :=
  Temperature.div_10_and_round ((temp_f * 10 - 320) * 5 / 9)

/-- Mathematical (non-wrapping) value of the `c_to_f` computation. -/
def c_to_f_exact (temp_c : Nat) : Nat :=
  Temperature.div_10_and_round (temp_c * 90 / 5 + 320)

/-- Every intermediate of `Temperature::f_to_c` stays inside `u16`:
`temp_f * 10` does not overflow, the subtraction of 320 does not underflow,
and the multiplication by 5 does not overflow. -/
def f_to_c_overflow_free (temp_f : Nat) : Prop :=
  temp_f * 10 ≤ 65535 ∧ 320 ≤ temp_f * 10 ∧ (temp_f * 10 - 320) * 5 ≤ 65535

/-- Every intermediate of `Temperature::c_to_f` stays inside `u16`:
`temp_c * 90` does not overflow (the later `/ 5 + 320` then cannot). -/
def c_to_f_overflow_free (temp_c : Nat) : Prop :=
  temp_c * 90 ≤ 65535

/-- C9: converting `Celsius(10)` to Fahrenheit yields 50, converting
`Fahrenheit(50)` back to Celsius yields 10 (stable round trip), and
converting `Celsius(21)` to Fahrenheit yields 70, each conversion rounding
to nearest via the one-decimal fixed-point helper `div_10_and_round`. -/
theorem temperature_example_conversions :
    (Temperature.Celsius 10).as_fahrenheit = 50 ∧
    (Temperature.Fahrenheit 50).as_celsius = 10 ∧
    (Temperature.Celsius 21).as_fahrenheit = 70 := by
  refine ⟨by decide, by decide, by decide⟩

/-- C10 counterexample: the claim states the Fahrenheit-to-Celsius
computation is free of `u16` under/overflow for all `32 ≤ f ≤ 6553`, but at
`f = 6553` the intermediate `(f * 10 - 320) * 5 = 326050` overflows `u16`. -/
theorem f_to_c_claimed_range_not_overflow_free :
    32 ≤ 6553 ∧ 6553 ≤ 6553 ∧ ¬ f_to_c_overflow_free 6553 := by
  refine ⟨by omega, by omega, ?_⟩
  unfold f_to_c_overflow_free
  omega

/-- C10 (amended): `as_celsius` on `Fahrenheit(f)` performs the unchecked
`u16` computation `(f * 10 - 320) * 5 / 9` and is free of `u16`
under/overflow exactly for `32 ≤ f ≤ 1342`; `as_fahrenheit` on `Celsius(c)`
performs `c * 90 / 5 + 320` and is overflow-free exactly for `c ≤ 728`;
within those ranges the wrapping computation agrees with the exact one,
while outside them some intermediate leaves the `u16` range. -/
theorem temperature_conversion_overflow_ranges :
    ∀ f c : Nat,
      (f_to_c_overflow_free f ↔ 32 ≤ f ∧ f ≤ 1342) ∧
      (c_to_f_overflow_free c ↔ c ≤ 728) ∧
      (f_to_c_overflow_free f →
        (Temperature.Fahrenheit f).as_celsius = f_to_c_exact f) ∧
      (c_to_f_overflow_free c →
        (Temperature.Celsius c).as_fahrenheit = c_to_f_exact c) := by
  intro f c
  refine ⟨?_, ?_, ?_, ?_⟩
  · unfold f_to_c_overflow_free
    omega
  · unfold c_to_f_overflow_free
    omega
  · intro h
    unfold f_to_c_overflow_free at h
    show Temperature.f_to_c f = f_to_c_exact f
    unfold Temperature.f_to_c f_to_c_exact
    have harg : wmul16 (wsub16 (wmul16 f 10) 320) 5 / 9 = (f * 10 - 320) * 5 / 9 := by
      unfold wmul16 wsub16
      omega
    rw [harg]
  · intro h
    unfold c_to_f_overflow_free at h
    show Temperature.c_to_f c = c_to_f_exact c
    unfold Temperature.c_to_f c_to_f_exact
    have harg : wadd16 (wmul16 c 90 / 5) 320 = c * 90 / 5 + 320 := by
      unfold wadd16 wmul16
      have h1 : c * 90 % 65536 = c * 90 := Nat.mod_eq_of_lt (by omega)
      rw [h1]
      have h2 : c * 90 / 5 ≤ 13107 := by
        have := Nat.div_le_div_right (c := 5) h
        omega
      exact Nat.mod_eq_of_lt (by omega)
    rw [harg]

/-- Witness for the amended C10 theorem at `f = 50` and `c = 21`. -/
theorem temperature_conversion_overflow_ranges_witness :
    (Temperature.Fahrenheit 50).as_celsius = f_to_c_exact 50 ∧
    (Temperature.Celsius 21).as_fahrenheit = c_to_f_exact 21 :=
  ⟨(temperature_conversion_overflow_ranges 50 21).2.2.1
      (by unfold f_to_c_overflow_free; omega),
   (temperature_conversion_overflow_ranges 50 21).2.2.2
      (by unfold c_to_f_overflow_free; omega)⟩

/-- Binary on/off flag, from `register.rs` (`State`): `Off = 0x00`, `On = 0x01`. -/
inductive State
  | Off
  | On
deriving DecidableEq, Repr

/-- Numeric value of a `State` (`State as u16`). -/
def State.toNat : State → Nat
  | .Off => 0x00
  | .On => 0x01

/-- From `register.rs`, `impl From<bool> for State`. -/
def State.ofBool : Bool → State
  | true => .On
  | false => .Off

/-- Preset group index, from `preset.rs` (`PresetGroup`), discriminants 0-9. -/
inductive PresetGroup
  | Group0
  | Group1
  | Group2
  | Group3
  | Group4
  | Group5
  | Group6
  | Group7
  | Group8
  | Group9
deriving DecidableEq, Repr

/-- Numeric value of a `PresetGroup` (`group as u16`). -/
def PresetGroup.toNat : PresetGroup → Nat
  | .Group0 => 0x00
  | .Group1 => 0x01
  | .Group2 => 0x02
  | .Group3 => 0x03
  | .Group4 => 0x04
  | .Group5 => 0x05
  | .Group6 => 0x06
  | .Group7 => 0x07
  | .Group8 => 0x08
  | .Group9 => 0x09

/-- From `preset.rs`, `impl TryFrom<u32> for PresetGroup`. -/
def PresetGroup.try_from (value : Nat) : Option PresetGroup :=
  match value with
  | 0 => some .Group0
  | 1 => some .Group1
  | 2 => some .Group2
  | 3 => some .Group3
  | 4 => some .Group4
  | 5 => some .Group5
  | 6 => some .Group6
  | 7 => some .Group7
  | 8 => some .Group8
  | 9 => some .Group9
  | _ => none

/-- Register offsets inside one preset block, from `preset.rs`
(`XyPresetOffsets`), in declaration order `0x00`-`0x0E`. -/
inductive XyPresetOffsets
  | VSet
  | ISet
  | SLvp
  | SOvp
  | SOcp
  | SOpp
  | SOhpH
  | SoHpM
  | SOahL
  | SOahH
  | SOwhL
  | SOwhH
  | SOtp
  | SIni
  | SEtp
deriving DecidableEq, Repr

/-- Numeric value of a preset offset (`XyPresetOffsets as u16`). -/
def XyPresetOffsets.toNat : XyPresetOffsets → Nat
  | .VSet => 0x00
  | .ISet => 0x01
  | .SLvp => 0x02
  | .SOvp => 0x03
  | .SOcp => 0x04
  | .SOpp => 0x05
  | .SOhpH => 0x06
  | .SoHpM => 0x07
  | .SOahL => 0x08
  | .SOahH => 0x09
  | .SOwhL => 0x0A
  | .SOwhH => 0x0B
  | .SOtp => 0x0C
  | .SIni => 0x0D
  | .SEtp => 0x0E

/-- From `preset.rs`: base address of the first preset register block. -/
def PRESET_OFFSET : Nat := 0x50

/-- From `preset.rs`, `XyPresetOffsets::address_in_group`:
`PRESET_OFFSET + (group as u16 * 0x10) + *self as u16`. -/
def XyPresetOffsets.address_in_group (r : XyPresetOffsets) (group : PresetGroup) : Nat :=
  PRESET_OFFSET + group.toNat * 0x10 + r.toNat

/-- Protection thresholds, from `preset.rs` (`ProtectionConfig`). The fugit
duration `over_time` (`Duration<u32, 1, 1>`, i.e. a count of seconds) is
embedded as `over_time_secs`. -/
structure ProtectionConfig where
  under_voltage_mv : Nat
  over_voltage_mv : Nat
  over_current_ma : Nat
  over_power_mw : Nat
  over_time_secs : Nat
  over_capacity_mah : Nat
  over_energy_mwh : Nat
  over_temperature : Temperature
deriving DecidableEq, Repr

/-- A preset, from `preset.rs` (`XyPreset`). -/
structure XyPreset where
  group : PresetGroup
  voltage_setting_mv : Nat
  current_setting_ma : Nat
  protection : ProtectionConfig
  output_enable : State
deriving DecidableEq, Repr

/-- From `preset.rs`, `XyPreset::generate_write_data_and_offset`. The two
`u16::try_from(..).unwrap()` calls (voltage setpoint and over-time hours)
panic out of range, embedded as `none`; `as u16` casts truncate via
`% 65536`; `to_hours()` is `secs / 3600` and `to_minutes()` is `secs / 60`.
Note that the `SOwhL` slot is written from `over_power_mw`, exactly as in
the source. -/
def XyPreset.generate_write_data_and_offset (p : XyPreset)
    (temperature_unit : TemperatureUnit) : Option (Nat × List Nat) :=
  if p.voltage_setting_mv / 10 ≤ 65535 ∧ p.protection.over_time_secs / 3600 ≤ 65535 then
    some (XyPresetOffsets.VSet.address_in_group p.group,
      [ p.voltage_setting_mv / 10,
        p.current_setting_ma,
        p.protection.under_voltage_mv / 10 % 65536,
        p.protection.over_voltage_mv / 10 % 65536,
        p.protection.over_current_ma,
        p.protection.over_power_mw / 10 % 65536,
        p.protection.over_time_secs / 3600,
        p.protection.over_time_secs / 60 % 60,
        p.protection.over_capacity_mah % 65536,
        p.protection.over_capacity_mah / 65536 % 65536,
        p.protection.over_power_mw % 65536,
        p.protection.over_energy_mwh / 65536 % 65536,
        p.protection.over_temperature.as_unit temperature_unit,
        p.output_enable.toNat,
        p.protection.over_temperature.as_unit temperature_unit ])
  else
    none

/-- A concrete preset exercising every slot: group 3, 5 V / 1 A setpoints,
over-time 10 h 10 min, over-capacity 99999 mAh, over-energy 70000 mWh,
over-power 99999 mW, over-temperature 100 degrees C, output enabled. -/
def presetPowerEnergy : XyPreset :=
  { group := .Group3
    voltage_setting_mv := 5000
    current_setting_ma := 1000
    protection :=
      { under_voltage_mv := 1000
        over_voltage_mv := 99999
        over_current_ma := 9999
        over_power_mw := 99999
        over_time_secs := 36600
        over_capacity_mah := 99999
        over_energy_mwh := 70000
        over_temperature := .Celsius 100 }
    output_enable := .On }

/-- C1: the encoder produces the group-3 base address `0x80` and the ordered
15-slot register array, but the over-energy low slot (index `0x0A`, `SOwhL`)
holds the low 16 bits of `over_power_mw` (34463), not the low 16 bits of the
configured `over_energy_mwh` (4464) as the claim and the register's own
documentation state. -/
theorem generate_write_data_power_in_energy_low_slot :
    presetPowerEnergy.generate_write_data_and_offset TemperatureUnit.Celsius =
      some (0x80,
        [500, 1000, 100, 9999, 9999, 9999, 10, 10, 34463, 1, 34463, 1, 100, 1, 100]) ∧
    presetPowerEnergy.protection.over_power_mw % 65536 = 34463 ∧
    presetPowerEnergy.protection.over_energy_mwh % 65536 = 4464 ∧
    (34463 : Nat) ≠ 4464 := by
  refine ⟨by decide, by decide, by decide, by decide⟩

/-- C8: for every preset offset and group, `address_in_group` equals
`0x50 + group * 0x10 + offset`; for a fixed offset it is strictly increasing
in the group index; `VSet` in group 3 gives `0x80` and `SOwhL` in group 3
gives `0x8A`. -/
theorem address_in_group_affine_and_monotone :
    (∀ (r : XyPresetOffsets) (g : PresetGroup),
        r.address_in_group g = 0x50 + g.toNat * 0x10 + r.toNat) ∧
    (∀ (r : XyPresetOffsets) (g1 g2 : PresetGroup),
        g1.toNat < g2.toNat → r.address_in_group g1 < r.address_in_group g2) ∧
    XyPresetOffsets.VSet.address_in_group .Group3 = 0x80 ∧
    XyPresetOffsets.SOwhL.address_in_group .Group3 = 0x8A := by
  refine ⟨fun r g => rfl, ?_, by decide, by decide⟩
  intro r g1 g2 h
  unfold XyPresetOffsets.address_in_group PRESET_OFFSET
  omega

/-- Witness for the monotonicity hypothesis of the C8 theorem: `VSet` in
group 2 is strictly below `VSet` in group 3. -/
theorem address_in_group_affine_and_monotone_witness :
    XyPresetOffsets.VSet.address_in_group .Group2 <
      XyPresetOffsets.VSet.address_in_group .Group3 :=
  address_in_group_affine_and_monotone.2.1 .VSet .Group2 .Group3 (by decide)

/-- Error taxonomy, from `error.rs` (`Error<I>`). The payloads of
`SerialError` (the transport error) and `ModbusError` (the codec error kind)
are not needed by any claim and are dropped. -/
inductive XyError
  | SerialError
  | ModbusError
  | Timeout
  | InvalidRange
  | InvalidResponse
  | BufferError
  | IntTooBig
  | ScalingNotAvailable
  | Other
deriving DecidableEq, Repr

/-- Outcome of a fallible operation that can also panic: Rust `Result` plus
an explicit `panic` value for `unimplemented!` / out-of-bounds indexing. -/
inductive PResult (α : Type)
  | panic
  | err (e : XyError)
  | ok (a : α)
deriving DecidableEq, Repr

/-- Per-model divisors, from `scaling.rs` (`ScalingFactors`). -/
structure ScalingFactors where
  voltage_divisor : Nat
  current_divisor : Nat
  power_divisor : Nat
  capacity_divisor : Nat
  energy_divisor : Nat
deriving DecidableEq, Repr

/-- From `scaling.rs`, `ScalingFactors::raw_to_voltage_mv`. -/
def ScalingFactors.raw_to_voltage_mv (s : ScalingFactors) (raw : Nat) : Nat :=
  raw * s.voltage_divisor

/-- From `scaling.rs`, `ScalingFactors::voltage_mv_to_raw` (`as u16` truncates). -/
def ScalingFactors.voltage_mv_to_raw (s : ScalingFactors) (voltage_mv : Nat) : Nat :=
  voltage_mv / s.voltage_divisor % 65536

/-- From `scaling.rs`, `ScalingFactors::raw_to_current_ma`. -/
def ScalingFactors.raw_to_current_ma (s : ScalingFactors) (raw : Nat) : Nat :=
  raw * s.current_divisor

/-- From `scaling.rs`, `ScalingFactors::current_ma_to_raw` (`as u16` truncates). -/
def ScalingFactors.current_ma_to_raw (s : ScalingFactors) (current_ma : Nat) : Nat :=
  current_ma / s.current_divisor % 65536

/-- From `scaling.rs`, `ScalingFactors::raw_to_power_mw`. -/
def ScalingFactors.raw_to_power_mw (s : ScalingFactors) (raw : Nat) : Nat :=
  raw * s.power_divisor

/-- From `scaling.rs`, `ScalingFactors::power_mw_to_raw` (`as u16` truncates). -/
def ScalingFactors.power_mw_to_raw (s : ScalingFactors) (power_mw : Nat) : Nat :=
  power_mw / s.power_divisor % 65536

/-- Recognized device identifiers, from `register.rs` (`ProductModel`).
`psu.rs` and `scaling.rs` additionally reference a variant `XY6020L` that is
absent from `register.rs` in this snapshot; it is included here, with its
register code modelled from the spec (see `ProductModel.code`). -/
inductive ProductModel
  | XYSK60S
  | XYSK120S
  | XYSK150S
  | XY3606B
  | XY3607F
  | XY6506
  | XY6506S
  | XY6509
  | XY6509X
  | XY7025
  | XY12522
  | XY6020L
deriving DecidableEq, Repr

/-- Register code of each model (`ProductModel as u16`), following the Rust
discriminants: implicit values count up from 0 and from the last explicit
value. Modelled from the spec: the `XY6020L` discriminant is not present in
`src/register.rs`; following the crate's convention that confirmed models use
their model number (3607, 7025, 12522) it is modelled as 6020. -/
def ProductModel.code : ProductModel → Nat
  | .XYSK60S => 0
  | .XYSK120S => 1
  | .XYSK150S => 2
  | .XY3606B => 3
  | .XY3607F => 3607
  | .XY6506 => 3608
  | .XY6506S => 3609
  | .XY6509 => 3610
  | .XY6509X => 3611
  | .XY7025 => 7025
  | .XY12522 => 12522
  | .XY6020L => 6020

/-- From `scaling.rs`, `ProductModel::scaling_factors`: four models have
confirmed divisors, every other model yields `None`. -/
def ProductModel.scaling_factors : ProductModel → Option ScalingFactors
  | .XY3607F => some ⟨10, 1, 100, 1, 10⟩
  | .XY7025 => some ⟨10, 10, 1000, 10, 100⟩
  | .XY12522 => some ⟨10, 10, 1000, 10, 100⟩
  | .XY6020L => some ⟨10, 10, 1000, 10, 100⟩
  | _ => none

/-- From `psu.rs`, `XyPsu::get_product_model`, as a function of the raw value
read from the model register: the guard chain recognizes four codes and the
catch-all arm is `unimplemented!`, i.e. a panic. -/
def get_product_model (raw : Nat) : PResult ProductModel :=
  if raw = ProductModel.code .XY6020L then .ok .XY6020L
  else if raw = ProductModel.code .XY12522 then .ok .XY12522
  else if raw = ProductModel.code .XY7025 then .ok .XY7025
  else if raw = ProductModel.code .XY3607F then .ok .XY3607F
  else .panic

/-- From `psu.rs`, `XyPsu::ensure_scaling`, as a function of the cached
factors and the raw value the device returns for the model register: a cached
value is returned directly; otherwise the model is detected and its factors
looked up, `None` becoming `ScalingNotAvailable`. -/
def ensure_scaling (cached : Option ScalingFactors) (model_raw : Nat) :
    PResult ScalingFactors :=
  match cached with
  | some scaling => .ok scaling
  | none =>
    match get_product_model model_raw with
    | .panic => .panic
    | .err e => .err e
    | .ok model =>
      match model.scaling_factors with
      | none => .err .ScalingNotAvailable
      | some scaling => .ok scaling

/-- C3 counterexample: at the concrete unrecognized model code 1 (the
`XYSK120S` discriminant, which the `get_product_model` guard chain does not
recognize), detection panics instead of returning a typed error, and a
scaled accessor with no cached and no caller-supplied factors propagates
that panic instead of failing with `ScalingNotAvailable`. -/
theorem get_product_model_panics_at_code_one :
    get_product_model 1 = .panic ∧
    ensure_scaling none 1 = .panic ∧
    ensure_scaling none 1 ≠ .err XyError.ScalingNotAvailable := by
  refine ⟨by decide, by decide, by decide⟩

/-- C3 (amended): for every raw model-register value that is not one of the
four recognized codes, `get_product_model` panics (`unimplemented!`) rather
than returning a default model or a typed error; a scaled accessor with no
cached and no caller-supplied factors panics in exactly those cases, never
produces `ScalingNotAvailable` (every recognized model has confirmed
factors), and returns cached factors unchanged when they exist. -/
theorem get_product_model_unrecognized_behavior :
    ∀ raw : Nat,
      (get_product_model raw = .panic ↔
        raw ≠ 6020 ∧ raw ≠ 12522 ∧ raw ≠ 7025 ∧ raw ≠ 3607) ∧
      (ensure_scaling none raw = .panic ↔ get_product_model raw = .panic) ∧
      ensure_scaling none raw ≠ .err XyError.ScalingNotAvailable ∧
      (∀ s : ScalingFactors, ensure_scaling (some s) raw = .ok s) := by
  intro raw
  refine ⟨?_, ?_, ?_, fun s => rfl⟩
  · unfold get_product_model ProductModel.code
    split_ifs with h1 h2 h3 h4 <;> simp_all
  · unfold ensure_scaling get_product_model ProductModel.code
    split_ifs with h1 h2 h3 h4 <;> simp [ProductModel.scaling_factors]
  · unfold ensure_scaling get_product_model ProductModel.code
    split_ifs with h1 h2 h3 h4 <;> simp [ProductModel.scaling_factors]

/-- Witness for the amended C3 theorem at the concrete raw code 3608 (the
`XY6506` discriminant, unrecognized by the guard chain). -/
theorem get_product_model_unrecognized_behavior_witness :
    get_product_model 3608 = .panic :=
  (get_product_model_unrecognized_behavior 3608).1.mpr (by decide)

/-- Low byte of a 16-bit value. -/
def loByte (x : Nat) : Nat := x % 256

/-- High byte of a 16-bit value. -/
def hiByte (x : Nat) : Nat := x / 256 % 256

/-- One bit round of CRC-16/MODBUS: shift right, xor with `0xA001` when the
dropped bit was set. -/
def crc16_step (crc : Nat) : Nat :=
  if crc % 2 = 1 then Nat.xor (crc / 2) 0xA001 else crc / 2

/-- Iterate `crc16_step`. -/
def crc16_bits : Nat → Nat → Nat
  | 0, crc => crc
  | n + 1, crc => crc16_bits n (crc16_step crc)

/-- Fold one byte into a CRC-16/MODBUS accumulator: xor into the low byte,
then eight bit rounds. -/
def crc16_update (crc b : Nat) : Nat := crc16_bits 8 (Nat.xor crc (b % 256))

/-- Modelled from the spec: the CRC16 used by the frame codec the driver
takes from the `rmodbus` crate — CRC-16/MODBUS with initial value `0xFFFF`,
pinned by the spec's concrete frames (`01 06 00 10 12 34` has CRC bytes
`85 78`). -/
def crc16 (bytes : List Nat) : Nat := bytes.foldl crc16_update 0xFFFF

/-- Append the CRC over `body` as low byte then high byte. -/
def appendCrc (body : List Nat) : List Nat :=
  body ++ [loByte (crc16 body), hiByte (crc16 body)]

/-- Modelled from the spec: the write-single-register request frame built by
the codec (`rmodbus generate_set_holding`, external to `src/`):
`[unit_id, 0x06, addr_hi, addr_lo, data_hi, data_lo, crc_lo, crc_hi]`. -/
def generate_set_holding (unit_id reg value : Nat) : List Nat :=
  appendCrc [unit_id % 256, 0x06, hiByte reg, loByte reg, hiByte value, loByte value]

/-- Modelled from the spec: the read-holding-registers request frame built by
the codec (`rmodbus generate_get_holdings`, external to `src/`):
`[unit_id, 0x03, addr_hi, addr_lo, count_hi, count_lo, crc_lo, crc_hi]`. -/
def generate_get_holdings (unit_id reg count : Nat) : List Nat :=
  appendCrc [unit_id % 256, 0x03, hiByte reg, loByte reg, hiByte count, loByte count]

/-- Modelled from the spec: the write-multiple-registers request frame built
by the codec (`rmodbus generate_set_holdings_bulk`, external to `src/`):
`[unit_id, 0x10, addr_hi, addr_lo, count_hi, count_lo, byte_count, data...,
crc_lo, crc_hi]`. -/
def generate_set_holdings_bulk (unit_id reg : Nat) (data : List Nat) : List Nat :=
  appendCrc ([unit_id % 256, 0x10, hiByte reg, loByte reg,
      hiByte data.length, loByte data.length, 2 * data.length % 256] ++
    data.flatMap (fun v => [hiByte v, loByte v]))

/-- Group a big-endian byte list into 16-bit register values. -/
def bytesToRegs : List Nat → List Nat
  | hi :: lo :: rest => (hi * 256 + lo) :: bytesToRegs rest
  | _ => []

/-- Modelled from the spec: parsing a read response (`rmodbus parse_u16`,
external to `src/`): the response is `[unit_id, 0x03, byte_count, data...,
crc_lo, crc_hi]`; the embedded CRC is validated and the register payload
extracted; a CRC mismatch or malformed structure fails. -/
def parse_u16 (unit_id : Nat) (resp : List Nat) : Option (List Nat) :=
  match resp with
  | uid :: fc :: bc :: rest =>
    if 2 ≤ rest.length then
      let data := rest.take (rest.length - 2)
      let crcb := rest.drop (rest.length - 2)
      if uid = unit_id % 256 ∧ fc = 0x03 ∧ bc = data.length ∧ bc % 2 = 0 ∧
          crcb = [loByte (crc16 (uid :: fc :: bc :: data)),
                  hiByte (crc16 (uid :: fc :: bc :: data))] then
        some (bytesToRegs data)
      else
        none
    else
      none
  | _ => none

/-- From `psu.rs`, the decode step of `XyPsu::read_modbus_single`: parse the
accumulated response (parse failure becomes `InvalidResponse`) and return
the first register (`InvalidResponse` when there is none). -/
def read_modbus_single_decode (unit_id : Nat) (resp : List Nat) : PResult Nat :=
  match parse_u16 unit_id resp with
  | none => .err .InvalidResponse
  | some regs =>
    match regs.head? with
    | none => .err .InvalidResponse
    | some v => .ok v

/-- From `psu.rs`, the validation step of `XyPsu::write_modbus_single`: the
accumulated response must be an identical echo of the transmitted request. -/
def write_single_validate (req resp : List Nat) : PResult Unit :=
  if req ≠ resp then .err .InvalidResponse else .ok ()

set_option maxRecDepth 4000 in
/-- C6: writing register `0x10` with value `0x1234` under unit id `0x01`
transmits exactly `01 06 00 10 12 34 85 78`, and the echo check succeeds
exactly on a byte-for-byte identical response, failing with
`InvalidResponse` on any other accumulated response. -/
theorem write_modbus_single_frame_and_echo :
    generate_set_holding 0x01 0x10 0x1234 =
      [0x01, 0x06, 0x00, 0x10, 0x12, 0x34, 0x85, 0x78] ∧
    ∀ resp : List Nat,
      (write_single_validate (generate_set_holding 0x01 0x10 0x1234) resp = .ok () ↔
        resp = generate_set_holding 0x01 0x10 0x1234) ∧
      (write_single_validate (generate_set_holding 0x01 0x10 0x1234) resp =
          .err XyError.InvalidResponse ↔
        resp ≠ generate_set_holding 0x01 0x10 0x1234) := by
  refine ⟨by decide, ?_⟩
  intro resp
  by_cases h : resp = generate_set_holding 0x01 0x10 0x1234 <;>
    simp [write_single_validate, h, Ne.symm]

set_option maxRecDepth 4000 in
/-- Witness for the C6 theorem: an exact echo of the transmitted frame is
accepted by the echo check. -/
theorem write_modbus_single_frame_and_echo_witness :
    write_single_validate (generate_set_holding 0x01 0x10 0x1234)
      (generate_set_holding 0x01 0x10 0x1234) = .ok () :=
  (write_modbus_single_frame_and_echo.2 (generate_set_holding 0x01 0x10 0x1234)).1.mpr rfl

set_option maxRecDepth 4000 in
/-- C7: reading register `0x20` (count 1) under unit id `0x01` transmits
exactly `01 03 00 20 00 01 85 C0`; the response `01 03 02 56 78 87 C6`
(valid CRC) decodes to the raw value `0x5678 = 22136`; the same payload
with CRC bytes `00 00` decodes to `InvalidResponse`. -/
theorem read_modbus_single_frame_and_decode :
    generate_get_holdings 0x01 0x20 1 =
      [0x01, 0x03, 0x00, 0x20, 0x00, 0x01, 0x85, 0xC0] ∧
    read_modbus_single_decode 0x01 [0x01, 0x03, 0x02, 0x56, 0x78, 0x87, 0xC6] =
      .ok 0x5678 ∧
    (0x5678 : Nat) = 22136 ∧
    read_modbus_single_decode 0x01 [0x01, 0x03, 0x02, 0x56, 0x78, 0x00, 0x00] =
      .err XyError.InvalidResponse := by
  refine ⟨by decide, by decide, by decide, by decide⟩

/-- Kind of a failed transport read (`embedded_io::ErrorKind`, restricted to
the kinds the driver and its mock distinguish). -/
inductive ReadErrorKind
  | Other
  | TimedOut
  | OutOfMemory
  | InvalidData
deriving DecidableEq, Repr

/-- The accumulation loops in `psu.rs` treat exactly the kinds `Other` and
`TimedOut` as "no data" (end-of-frame when the buffer is non-empty). -/
def ReadErrorKind.treated_as_no_data : ReadErrorKind → Bool
  | .Other => true
  | .TimedOut => true
  | .OutOfMemory => false
  | .InvalidData => false

/-- One outcome of `interface.read` as seen by the accumulation loop. -/
inductive ReadEvent
  | ok (bytes : List Nat)
  | err (kind : ReadErrorKind)
deriving DecidableEq, Repr

/-- How an accumulation loop run ends: a complete response buffer, a fatal
transport error, buffer exhaustion, or still looping when the supplied event
list runs out. -/
inductive AccResult
  | complete (buf : List Nat)
  | serialError
  | bufferError
  | pending (buf : List Nat)
deriving DecidableEq, Repr

/-- From `psu.rs`, the response-accumulation loop shared by
`write_modbus_single`, `write_modbus_bulk`, `read_modbus_single` and
`read_modbus_bulk`, as a function of the sequence of transport-read
outcomes. `cap` is the `heapless::Vec<u8, L>` capacity, `minLen` the
operation's minimum expected response size (8, or
`5 + 2 * count + 2` for bulk reads). On a successful read the bytes are
appended (`extend_from_slice` fails if that would exceed the capacity, and
the loop returns `BufferError`), then the loop stops once the buffer holds
at least `minLen` bytes; on a read error of kind `Other`/`TimedOut` with a
non-empty buffer the frame is considered complete, any other error outcome
is fatal. -/
def accumulate (cap minLen : Nat) (buf : List Nat) : List ReadEvent → AccResult
  | [] => .pending buf
  | .ok bytes :: rest =>
    if cap < buf.length + bytes.length then .bufferError
    else if minLen ≤ buf.length + bytes.length then .complete (buf ++ bytes)
    else accumulate cap minLen (buf ++ bytes) rest
  | .err kind :: _ =>
    if kind.treated_as_no_data ∧ buf ≠ [] then .complete buf else .serialError

/-- Completed runs of the accumulation loop never exceed the buffer
capacity: appending is all-or-nothing, so no truncated frame survives. -/
theorem accumulate_complete_le_cap (cap minLen : Nat) :
    ∀ (events : List ReadEvent) (buf b : List Nat), buf.length ≤ cap →
      accumulate cap minLen buf events = .complete b → b.length ≤ cap := by
  intro events
  induction events with
  | nil =>
    intro buf b hle h
    simp [accumulate] at h
  | cons e rest ih =>
    intro buf b hle h
    cases e with
    | ok bytes =>
      unfold accumulate at h
      by_cases hcap : cap < buf.length + bytes.length
      · simp [hcap] at h
      · simp [hcap] at h
        by_cases hmin : minLen ≤ buf.length + bytes.length
        · simp [hmin] at h
          subst h
          simp
          omega
        · simp [hmin] at h
          exact ih (buf ++ bytes) b (by simp; omega) h
    | err kind =>
      unfold accumulate at h
      by_cases hnd : kind.treated_as_no_data = true ∧ buf ≠ []
      · simp [hnd] at h
        subst h
        exact hle
      · simp [hnd] at h

/-- C5: behavior of the transaction response-accumulation loop. Bytes from a
successful read are appended; accumulation completes once the buffer reaches
the operation's minimum expected length, or on a no-data report with a
non-empty buffer; a no-data report on an empty buffer or any other read
error is a fatal serial error; an append that would exceed the fixed
capacity yields a buffer-exhausted error; and a completed buffer never
exceeds the capacity, so no truncated frame is ever treated as complete. -/
theorem accumulate_loop_spec (cap minLen : Nat) (buf bytes : List Nat)
    (kind : ReadErrorKind) (rest : List ReadEvent) :
    (cap < buf.length + bytes.length →
      accumulate cap minLen buf (.ok bytes :: rest) = .bufferError) ∧
    (buf.length + bytes.length ≤ cap → minLen ≤ buf.length + bytes.length →
      accumulate cap minLen buf (.ok bytes :: rest) = .complete (buf ++ bytes)) ∧
    (buf.length + bytes.length ≤ cap → buf.length + bytes.length < minLen →
      accumulate cap minLen buf (.ok bytes :: rest) =
        accumulate cap minLen (buf ++ bytes) rest) ∧
    (kind.treated_as_no_data = true → buf ≠ [] →
      accumulate cap minLen buf (.err kind :: rest) = .complete buf) ∧
    (kind.treated_as_no_data = true → buf = [] →
      accumulate cap minLen buf (.err kind :: rest) = .serialError) ∧
    (kind.treated_as_no_data = false →
      accumulate cap minLen buf (.err kind :: rest) = .serialError) ∧
    (∀ (events : List ReadEvent) (b : List Nat),
      accumulate cap minLen [] events = .complete b → b.length ≤ cap) := by
  refine ⟨?_, ?_, ?_, ?_, ?_, ?_, ?_⟩
  · intro h
    unfold accumulate
    simp [h]
  · intro hcap hmin
    unfold accumulate
    rw [if_neg (by omega), if_pos hmin]
  · intro hcap hmin
    conv_lhs => rw [accumulate]
    rw [if_neg (by omega), if_neg (by omega)]
  · intro hnd hne
    unfold accumulate
    simp [hnd, hne]
  · intro hnd hemp
    unfold accumulate
    simp [hemp]
  · intro hnd
    unfold accumulate
    simp [hnd]
  · intro events b h
    exact accumulate_complete_le_cap cap minLen events [] b (by simp) h

/-- Witness for the C5 theorem: with capacity 8 and minimum length 8, a read
delivering five bytes into a three-byte buffer completes the frame. -/
theorem accumulate_loop_spec_witness :
    accumulate 8 8 [1, 2, 3] (.ok [4, 5, 6, 7, 8] :: []) =
      .complete [1, 2, 3, 4, 5, 6, 7, 8] :=
  (accumulate_loop_spec 8 8 [1, 2, 3] [4, 5, 6, 7, 8] .Other []).2.1
    (by decide) (by decide)

/-- From `psu.rs`, the validation step of `XyPsu::write_modbus_bulk`: the
source compares `buff_1.as_slice()[0..=5]` with `buff_2.as_slice()[0..=5]`.
Slicing with `[0..=5]` panics when the slice holds fewer than six bytes,
embedded as the explicit `panic` outcome; otherwise a header mismatch is an
`InvalidResponse` error. -/
def write_bulk_validate (req resp : List Nat) : PResult Unit :=
  if resp.length < 6 ∨ req.length < 6 then .panic
  else if req.take 6 ≠ resp.take 6 then .err .InvalidResponse
  else .ok ()

/-- From `psu.rs`, `XyPsu::write_modbus_bulk` as a function of the transport
events: build the request, accumulate the response (minimum length 8,
capacity `cap`), then validate the echoed header. `none` stands for a run in
which the loop is still waiting for more transport events. -/
def write_modbus_bulk_model (cap unit_id reg : Nat) (data : List Nat)
    (events : List ReadEvent) : Option (PResult Unit) :=
  match accumulate cap 8 [] events with
  | .complete resp => some (write_bulk_validate (generate_set_holdings_bulk unit_id reg data) resp)
  | .serialError => some (.err .SerialError)
  | .bufferError => some (.err .BufferError)
  | .pending _ => none

set_option maxRecDepth 4000 in
/-- C2 failing input: a bulk write whose response is a single byte followed
by a no-data report. The loop completes with a one-byte buffer and the
header comparison `buff_1[0..=5] != buff_2[0..=5]` panics (out-of-bounds
slice) instead of returning the typed invalid-response error the claim
describes. -/
theorem write_modbus_bulk_truncated_response_panics :
    write_modbus_bulk_model 128 0x01 0x50 [0, 0]
      [.ok [0x01], .err .TimedOut] = some .panic := by
  decide

/-- The named holding-register address space, from `register.rs`
(`XyRegister`). -/
inductive XyRegister
  | VSet
  | ISet
  | VOut
  | IOut
  | Power
  | UIn
  | AhLow
  | AhHigh
  | WhLow
  | WhHigh
  | OutH
  | OutM
  | OutS
  | TIn
  | TEx
  | Lock
  | Protect
  | CvCc
  | OnOff
  | FC
  | BLed
  | Sleep
  | Model
  | Version
  | SlaveAdd
  | BaudRateL
  | TInOffset
  | TExOffset
  | Buzzer
  | ExtractM
  | Device
  | MpptSw
  | MpptK
  | BatFul
  | CwSw
  | Cw
deriving DecidableEq, Repr

/-- Fixed address of each named register (`XyRegister as u16`). -/
def XyRegister.toNat : XyRegister → Nat
  | .VSet => 0x00
  | .ISet => 0x01
  | .VOut => 0x02
  | .IOut => 0x03
  | .Power => 0x04
  | .UIn => 0x05
  | .AhLow => 0x06
  | .AhHigh => 0x07
  | .WhLow => 0x08
  | .WhHigh => 0x09
  | .OutH => 0x0A
  | .OutM => 0x0B
  | .OutS => 0x0C
  | .TIn => 0x0D
  | .TEx => 0x0E
  | .Lock => 0x0F
  | .Protect => 0x10
  | .CvCc => 0x11
  | .OnOff => 0x12
  | .FC => 0x13
  | .BLed => 0x14
  | .Sleep => 0x15
  | .Model => 0x16
  | .Version => 0x17
  | .SlaveAdd => 0x18
  | .BaudRateL => 0x19
  | .TInOffset => 0x1A
  | .TExOffset => 0x1B
  | .Buzzer => 0x1C
  | .ExtractM => 0x1D
  | .Device => 0x1E
  | .MpptSw => 0x1F
  | .MpptK => 0x20
  | .BatFul => 0x21
  | .CwSw => 0x22
  | .Cw => 0x23

/-- From `register.rs`, `impl TryFrom<u16> for TemperatureUnit`. -/
def TemperatureUnit.try_from (value : Nat) : Option TemperatureUnit :=
  if value = 0x00 then some .Celsius
  else if value = 0x01 then some .Fahrenheit
  else none

/-- A device that answers requests as the hardware would: a total register
file, block writes storing the written values at consecutive addresses. -/
def writeBlock (regs : Nat → Nat) (start : Nat) (data : List Nat) : Nat → Nat :=
  fun a => if start ≤ a ∧ a < start + data.length then data.getD (a - start) 0 else regs a

/-- From `psu.rs`, `XyPsu::set_protections` run against an ideally answering
device with the scaling factors fixed in advance: read the active preset
group, the current voltage/current setpoints (converted to physical units)
and the output state, merge in the new protection thresholds via
`XyPresetBuilder`, read the temperature unit, encode the preset with
`generate_write_data_and_offset` and bulk-write the block. `none` models the
failure/panic paths (unrecognized group or unit, encoder panic). -/
def set_protections_model (s : ScalingFactors) (c : ProtectionConfig)
    (regs : Nat → Nat) : Option (Nat → Nat) :=
  match PresetGroup.try_from (regs XyRegister.ExtractM.toNat) with
  | none => none
  | some group =>
    let set_voltage := s.raw_to_voltage_mv (regs XyRegister.VSet.toNat)
    let set_current := s.raw_to_current_ma (regs XyRegister.ISet.toNat)
    let set_output_state := regs XyRegister.OnOff.toNat
    let preset : XyPreset :=
      { group := group
        voltage_setting_mv := set_voltage
        current_setting_ma := set_current
        protection := c
        output_enable := State.ofBool (set_output_state != 0) }
    match TemperatureUnit.try_from (regs XyRegister.FC.toNat) with
    | none => none
    | some temp_unit =>
      match preset.generate_write_data_and_offset temp_unit with
      | none => none
      | some (start_address, write_buffer) =>
        some (writeBlock regs start_address write_buffer)

/-- From `psu.rs`, `XyPsu::get_protections` run against an ideally answering
device with the scaling factors fixed in advance: read the active preset
group, bulk-read the 13 registers from `SLvp` through `SEtp` of that group,
read the temperature unit, and decode each threshold by multiplying raw
values with the per-model divisors (`|` of disjoint 16-bit halves embedded
as addition, hours/minutes recombined into seconds). -/
def get_protections_model (s : ScalingFactors) (regs : Nat → Nat) :
    Option ProtectionConfig :=
  match PresetGroup.try_from (regs XyRegister.ExtractM.toNat) with
  | none => none
  | some group =>
    let start := XyPresetOffsets.SLvp.address_in_group group
    let r := fun i : Nat => regs (start + i)
    match TemperatureUnit.try_from (regs XyRegister.FC.toNat) with
    | none => none
    | some temp_unit =>
      some
        { under_voltage_mv := s.raw_to_voltage_mv (r 0)
          over_voltage_mv := s.raw_to_voltage_mv (r 1)
          over_current_ma := s.raw_to_current_ma (r 2)
          over_power_mw := s.raw_to_power_mw (r 3)
          over_time_secs := r 4 * 3600 + r 5 * 60
          over_capacity_mah := (r 6 + r 7 * 65536) * s.capacity_divisor
          over_energy_mwh := (r 8 + r 9 * 65536) * s.energy_divisor
          over_temperature := Temperature.new (r 10) temp_unit }

/-- The confirmed scaling factors of the XY7025 model, from `scaling.rs`. -/
def scalingXY7025 : ScalingFactors := ⟨10, 10, 1000, 10, 100⟩

/-- Initial device register file for the C4 round trip: active group 3,
voltage setpoint raw 500, current setpoint raw 1000, output on, Celsius. -/
def deviceRegs0 : Nat → Nat := fun a =>
  if a = XyRegister.ExtractM.toNat then 3
  else if a = XyRegister.VSet.toNat then 500
  else if a = XyRegister.ISet.toNat then 1000
  else if a = XyRegister.OnOff.toNat then 1
  else 0

/-- The protection configuration written in the C4 round trip. -/
def protCfgRoundTrip : ProtectionConfig :=
  { under_voltage_mv := 1000
    over_voltage_mv := 20000
    over_current_ma := 1000
    over_power_mw := 50000
    over_time_secs := 36600
    over_capacity_mah := 20000
    over_energy_mwh := 30000
    over_temperature := .Celsius 80 }

/-- C4 failing run: with the XY7025 scaling factors fixed, writing
`protCfgRoundTrip` with `set_protections` and reading back with
`get_protections` over an ideally answering device returns a configuration
whose over-current field is 10000 mA, not the 1000 mA written (the encoder
divides physical values by a hard-coded 10 while the decoder multiplies by
the per-model divisors, and the over-energy slot receives `over_power_mw`),
so the claimed field-for-field round trip fails. -/
theorem set_then_get_protections_diverges :
    (set_protections_model scalingXY7025 protCfgRoundTrip deviceRegs0).bind
        (get_protections_model scalingXY7025) =
      some
        { under_voltage_mv := 1000
          over_voltage_mv := 20000
          over_current_ma := 10000
          over_power_mw := 5000000
          over_time_secs := 36600
          over_capacity_mah := 200000
          over_energy_mwh := 5000000
          over_temperature := .Celsius 80 } ∧
    protCfgRoundTrip.over_current_ma = 1000 ∧
    (10000 : Nat) ≠ 1000 := by
  refine ⟨by decide, by decide, by decide⟩

end Sinilink
